import Mathlib

/-!
Verification development for the `movietime_mcp` scraper
(`src/movietime_mcp/scraper.py`).

The Python module is shallowly embedded here:

* JSON values (`resp.json()` payloads, showtime/theater/movie objects) are
  modelled by the inductive type `JVal`; JSON numbers are modelled as
  rationals.
* Python `dict` objects are association lists with unique keys; `dict.get`
  with and without defaults, item assignment, truthiness and iteration are
  modelled by `jLookup`, `jGetD`, `jGet`, `jSet`, `jTruthy` and `pyIter`.
* Remote I/O (`_fetch_json` / `_fetch_html`) is abstracted to an input of
  type `Fetched α`: the three possible outcomes of the single HTTP request
  the code performs (HTTP status failure, transport failure, success).
* Operations that can raise a Python exception (e.g. calling `.get` on a
  non-dict, rounding a string) return `Option`; `none` models the raised
  exception.
* The current date (`date.today()`) is passed in as an explicit `today`
  parameter.
-/

namespace Movietime

/-- JSON values as produced by `resp.json()`.  Numbers are modelled as
rationals (the payloads the claims quantify over are decimal literals, which
are exact in this model). -/
inductive JVal where
  | null : JVal
  | bool : Bool → JVal
  | num : ℚ → JVal
  | str : String → JVal
  | arr : List JVal → JVal
  | obj : List (String × JVal) → JVal

/-- A Python dict with string keys (JSON object): an association list whose
keys are unique, looked up front-to-back. -/
abbrev JObj := List (String × JVal)

/-- Key lookup in a dict: `o[k]` when the key is present. -/
def jLookup (o : JObj) (k : String) : Option JVal :=
  List.lookup k o

/-- Python `o.get(k, d)`: the stored value when the key is present (even when
that value is `null`), else the default. -/
def jGetD (o : JObj) (k : String) (d : JVal) : JVal :=
  (jLookup o k).getD d

/-- Python `o.get(k)`: the stored value or `None`. -/
def jGet (o : JObj) (k : String) : JVal :=
  jGetD o k JVal.null

/-- Python item assignment `o[k] = v`: replaces the value in place when the
key exists, else appends the new key at the end (insertion order). -/
def jSet : JObj → String → JVal → JObj
  | [], k, v => [(k, v)]
  | (k', v') :: rest, k, v =>
      if k' = k then (k, v) :: rest else (k', v') :: jSet rest k v

/-- Python truthiness of a JSON value. -/
def jTruthy : JVal → Bool
  | JVal.null => false
  | JVal.bool b => b
  | JVal.num q => decide (q ≠ 0)
  | JVal.str s => decide (s ≠ "")
  | JVal.arr [] => false
  | JVal.arr (_ :: _) => true
  | JVal.obj [] => false
  | JVal.obj (_ :: _) => true

/-- Views a value as a dict; `none` where Python would raise
(`AttributeError` on `.get`, etc.). -/
def asObj : JVal → Option JObj
  | JVal.obj o => some o
  | _ => none

/-- Python `for x in v`: lists iterate their elements, strings iterate
one-character strings, dicts iterate their keys; other values raise
`TypeError` (modelled as `none`). -/
def pyIter : JVal → Option (List JVal)
  | JVal.arr xs => some xs
  | JVal.str s => some (s.data.map (fun c => JVal.str (String.mk [c])))
  | JVal.obj kvs => some (kvs.map (fun kv => JVal.str kv.1))
  | _ => none

/-- Python `str()` rendering, used by the code only inside f-strings that
build URLs and showtime labels.  It is exact for the scalar values that those
interpolations receive in this code base (URI path fragments and format
labels, which are strings); the rendering of containers and non-integer
numbers is a best-effort stand-in that no claim depends on. -/
def pyStr : JVal → String
  | JVal.null => "None"
  | JVal.bool true => "True"
  | JVal.bool false => "False"
  | JVal.num q => if q.den = 1 then toString q.num else toString q.num ++ "/" ++ toString q.den
  | JVal.str s => s
  | JVal.arr _ => "[...]"
  | JVal.obj _ => "\x7b...\x7d"

/-- Outcome of the single HTTP request performed by `_fetch_json` /
`_fetch_html`: non-2xx status (`httpx.HTTPStatusError`), transport failure
(`httpx.RequestError`), or a successful body of type `α`. -/
inductive Fetched (α : Type) where
  | httpError (code : Nat) (reason : String)
  | transportError (msg : String)
  | ok (val : α)

/-- `FANDANGO_BASE` from the source. -/
def FANDANGO_BASE : String := "https://www.fandango.com"

/-! ### String helpers (Python semantics) -/

/-- The characters Python's `str.strip()` removes (ASCII whitespace; the
code's inputs are ASCII). -/
def pySpace (c : Char) : Bool :=
  c = ' ' || c = '\t' || c = '\n' || c = '\r' || c = '\x0b' || c = '\x0c'

/-- `str.strip()` on a character list. -/
def pyStripL (l : List Char) : List Char :=
  ((l.dropWhile pySpace).reverse.dropWhile pySpace).reverse

/-- Python `str.strip()`. -/
def pyStrip (s : String) : String :=
  String.mk (pyStripL s.data)

/-- Split at the first comma: `s.split(",", 1)` when a comma is present. -/
def splitFirstComma : List Char → Option (List Char × List Char)
  | [] => none
  | c :: rest =>
      if c = ',' then some ([], rest)
      else (splitFirstComma rest).map (fun p => (c :: p.1, p.2))

/-- The regex `^\d{5}(-\d{4})?$` of `_parse_location` (total match). -/
def isZipPat : List Char → Bool
  | [a, b, c, d, e] => a.isDigit && b.isDigit && c.isDigit && d.isDigit && e.isDigit
  | [a, b, c, d, e, f, g, h, i, j] =>
      a.isDigit && b.isDigit && c.isDigit && d.isDigit && e.isDigit &&
      f = '-' && g.isDigit && h.isDigit && i.isDigit && j.isDigit
  | _ => false

/-- `_parse_location` from the source: strips the input, recognises a ZIP
code, else splits City, State at the first comma, else a bare city.  The
result is the dict of API query parameters the function returns. -/
def parse_location (location : String) : List (String × String) :=
  let l := pyStrip location
  if isZipPat l.data then [("zipCode", l)]
  else
    match splitFirstComma l.data with
    | some p => [("city", String.mk (pyStripL p.1)), ("state", String.mk (pyStripL p.2))]
    | none => [("city", l), ("state", "")]

/-! ### `_validate_date` and the `%Y-%m-%d` strptime format

`datetime.strptime(dt, "%Y-%m-%d")` accepts: four digits (the year), a dash,
a one- or two-digit month `1..12`, a dash, a day `1..31` written either as
one or two digits or — CPython's `%d` pattern ends in the alternative
`' [1-9]'` — as a space followed by a nonzero digit, and nothing after the
day — and then `datetime` construction validates the calendar (year at
least 1, day within the month, Gregorian leap rule).  Unicode digits, which
CPython's `\d` would also accept, are not modelled. -/

def digitVal (c : Char) : ℕ := c.toNat - '0'.toNat

def isLeap (y : ℕ) : Bool :=
  y % 4 = 0 && (y % 100 ≠ 0 || y % 400 = 0)

def daysInMonth (y m : ℕ) : ℕ :=
  if m = 2 then (if isLeap y then 29 else 28)
  else if m = 4 || m = 6 || m = 9 || m = 11 then 30
  else 31

/-- The month field of the format: regex `1[0-2]|0[1-9]|[1-9]`, returning the
value and the unconsumed remainder. -/
def parseMonth : List Char → Option (ℕ × List Char)
  | '1' :: c :: rest =>
      if '0' ≤ c && c ≤ '2' then some (10 + digitVal c, rest)
      else some (1, c :: rest)
  | '0' :: c :: rest =>
      if '1' ≤ c && c ≤ '9' then some (digitVal c, rest) else none
  | c :: rest =>
      if '1' ≤ c && c ≤ '9' then some (digitVal c, rest) else none
  | [] => none

/-- The day field of the format: regex `3[01]|[12]\d|0[1-9]|[1-9]| [1-9]`
(the last alternative is CPython's space-padded day, e.g. `" 3"`). -/
def parseDay : List Char → Option (ℕ × List Char)
  | c1 :: c2 :: rest =>
      if c1 = '3' && (c2 = '0' || c2 = '1') then some (30 + digitVal c2, rest)
      else if (c1 = '1' || c1 = '2') && c2.isDigit then
        some (digitVal c1 * 10 + digitVal c2, rest)
      else if c1 = '0' then
        (if '1' ≤ c2 && c2 ≤ '9' then some (digitVal c2, rest) else none)
      else if '1' ≤ c1 && c1 ≤ '9' then some (digitVal c1, c2 :: rest)
      else if c1 = ' ' then
        (if '1' ≤ c2 && c2 ≤ '9' then some (digitVal c2, rest) else none)
      else none
  | [c1] => if '1' ≤ c1 && c1 ≤ '9' then some (digitVal c1, []) else none
  | [] => none

/-- `datetime.strptime(s, "%Y-%m-%d")`: `some (y, m, d)` on success, `none`
where Python raises `ValueError`. -/
def strptime_ymd (s : String) : Option (ℕ × ℕ × ℕ) :=
  match s.data with
  | y1 :: y2 :: y3 :: y4 :: '-' :: rest =>
      if y1.isDigit && y2.isDigit && y3.isDigit && y4.isDigit then
        match parseMonth rest with
        | some (m, '-' :: rest2) =>
            match parseDay rest2 with
            | some (d, []) =>
                let y := ((digitVal y1 * 10 + digitVal y2) * 10 + digitVal y3) * 10 + digitVal y4
                if 1 ≤ y && 1 ≤ d && d ≤ daysInMonth y m then some (y, m, d) else none
            | _ => none
        | _ => none
      else none
  | _ => none

/-- `_validate_date` from the source: empty or absent input and parse
failures fall back to today's date; a string the strptime call accepts is
returned unchanged.  Being a Lean function, it is total: it never raises. -/
def validate_date (today : String) (dt : Option String) : String :=
  match dt with
  | none => today
  | some s =>
      if s = "" then today
      else if (strptime_ymd s).isSome then s else today

/-! ### Showtime / movie / theater simplification (`_simplify_*`)

Rounding: Python's `round(x, 2)` rounds half-to-even; on the rational model
this is `round2`.  (CPython operates on binary doubles; for the decimal
payload values the claims quantify over, the two agree.) -/

/-- Round to the nearest integer, ties to even (Python `round`), computed on
the rational's numerator and denominator: with `f = ⌊q⌋` (floor division,
the denominator being positive), the fractional part `q - f` is
`(num - f * den) / den`, so comparing it against `1/2` is comparing
`2 * (num - f * den)` against `den`. -/
def round_half_even (q : ℚ) : ℤ :=
  let n : ℤ := q.num
  let d : ℤ := (q.den : ℤ)
  let f : ℤ := n.fdiv d
  let r2 : ℤ := 2 * (n - f * d)
  if r2 < d then f
  else if d < r2 then f + 1
  else if f % 2 = 0 then f else f + 1

/-- Python `round(q, 2)`: round `q * 100` (i.e. `(100 * num) / den`)
half-to-even and divide by 100. -/
def round2 (q : ℚ) : ℚ :=
  Rat.divInt (round_half_even (Rat.divInt (q.num * 100) (q.den : ℤ))) 100

/-- The `"time"` field computed by `_simplify_showtime`: when the stored
`ticketingDate` value is a dict, its `localTime` entry (default `""`, the
flat `dateTime` is *not* consulted); otherwise the flat `dateTime` entry
(default `""`). -/
def time_of (st : JObj) : JVal :=
  match jLookup st "ticketingDate" with
  | some (JVal.obj td) => jGetD td "localTime" (JVal.str "")
  | _ => jGetD st "dateTime" (JVal.str "")

/-- An f-string URL field: `f"{FANDANGO_BASE}{o[k]}" if o.get(k) else None`. -/
def url_field (o : JObj) (k : String) : JVal :=
  if jTruthy (jGet o k) then JVal.str (FANDANGO_BASE ++ pyStr (jGet o k)) else JVal.null

/-- `_simplify_showtime` from the source. -/
def simplify_showtime (st : JObj) : JObj :=
  [("time", time_of st),
   ("format", jGetD st "formatStr" (JVal.str "")),
   ("ticket_url", url_field st "ticketingJumpPageURL"),
   ("is_sold_out", jGetD st "isSoldOut" (JVal.bool false))]

/-- A simplified variant, kept structured: its `"format"` value and its
`"showtimes"` list (each a simplified-showtime dict).  `_simplify_variant`
returns the dict `variant_obj` of this data; keeping the pair makes the
flattening loop of `_simplify_movie` (which reads `v["format"]` and
`v["showtimes"]` straight back out of that dict) direct. -/
structure SVariant where
  format : JVal
  showtimes : List JObj

/-- The dict `_simplify_variant` builds. -/
def variant_obj (v : SVariant) : JObj :=
  [("format", v.format), ("showtimes", JVal.arr (v.showtimes.map JVal.obj))]

/-- `_simplify_variant` from the source: walks every amenity group's showtime
list in order and flattens; `none` models the `TypeError`/`AttributeError`
Python raises when a supposed container has the wrong shape. -/
def simplify_variant (v : JObj) : Option SVariant :=
  match pyIter (jGetD v "amenityGroups" (JVal.arr [])) with
  | none => none
  | some ags =>
      match ags.mapM (fun agv =>
        match asObj agv with
        | none => none
        | some ag =>
            match pyIter (jGetD ag "showtimes" (JVal.arr [])) with
            | none => none
            | some sts => sts.mapM (fun stv => (asObj stv).map simplify_showtime)) with
      | none => none
      | some stss => some ⟨jGetD v "filmFormatHeader" (JVal.str "Standard"), stss.flatten⟩

/-- One flattened `all_times` label in `_simplify_movie`: the showtime's
`"time"` value, with `" ({format})"` appended when the variant's format is
truthy and not the string `"Standard"`.  (Python's `label += ...` raises
unless the label is a string; `!=` against a string is `True` for any
non-string value.) -/
def mk_label (fmt time : JVal) : Option JVal :=
  if jTruthy fmt && (match fmt with | JVal.str s => decide (s ≠ "Standard") | _ => true) then
    match time with
    | JVal.str s => some (JVal.str (s ++ " (" ++ pyStr fmt ++ ")"))
    | _ => none
  else some time

/-- The flattened `all_times` list of `_simplify_movie`: variants outermost,
showtimes in order, reading `st["time"]` from each simplified showtime. -/
def all_times_of (vs : List SVariant) : Option (List JVal) :=
  (vs.mapM (fun (v : SVariant) =>
    v.showtimes.mapM (fun st => mk_label v.format (jGet st "time")))).map List.flatten

/-- `movie.get("poster", {}).get("size", {}).get("200") or ...get("full")`. -/
def poster_field (m : JObj) : Option JVal :=
  match jGetD m "poster" (JVal.obj []) with
  | JVal.obj p =>
      match jGetD p "size" (JVal.obj []) with
      | JVal.obj s =>
          some (if jTruthy (jGet s "200") then jGet s "200" else jGet s "full")
      | _ => none
  | _ => none

/-- `_simplify_movie` from the source. -/
def simplify_movie (m : JObj) : Option JObj :=
  match (match pyIter (jGetD m "variants" (JVal.arr [])) with
         | none => none
         | some vs => vs.mapM (fun vv =>
             match asObj vv with
             | none => none
             | some v => simplify_variant v)) with
  | none => none
  | some vs =>
      match all_times_of vs with
      | none => none
      | some labels =>
          match poster_field m with
          | none => none
          | some poster =>
              some [("id", jGet m "id"),
                    ("title", jGetD m "title" (JVal.str "Unknown")),
                    ("rating", jGet m "rating"),
                    ("runtime_min", jGet m "runtime"),
                    ("genres", jGetD m "genres" (JVal.arr [])),
                    ("release_date", jGet m "releaseDate"),
                    ("poster", poster),
                    ("fandango_url", url_field m "mopURI"),
                    ("showtimes", JVal.arr labels),
                    ("variants", JVal.arr (vs.map (fun v => JVal.obj (variant_obj v))))]

/-- The `"distance_miles"` field of `_simplify_theater`:
`round(theater["distance"], 2) if theater.get("distance") is not None else
None`.  Rounding a non-numeric value raises (`none`); Python `bool` is an
`int` subclass, so booleans round to 0/1. -/
def distance_field (t : JObj) : Option JVal :=
  match jLookup t "distance" with
  | none => some JVal.null
  | some JVal.null => some JVal.null
  | some (JVal.num q) => some (JVal.num (round2 q))
  | some (JVal.bool b) => some (JVal.num (if b then 1 else 0))
  | some _ => none

/-- `theater.get("geo", {}).get("latitude")` / `...("longitude")`. -/
def geo_field (t : JObj) : Option (JVal × JVal) :=
  match jGetD t "geo" (JVal.obj []) with
  | JVal.obj g => some (jGet g "latitude", jGet g "longitude")
  | _ => none

/-- The movie list of `_simplify_theater`: `theater.get("movies", [])`,
each element simplified. -/
def simplify_movie_list (v : JVal) : Option (List JObj) :=
  match pyIter v with
  | none => none
  | some xs => xs.mapM (fun x =>
      match asObj x with
      | none => none
      | some o => simplify_movie o)

/-- `_simplify_theater` from the source.  (Python evaluates the movie list
first and then the dict literal's fields in order; which failing field raises
first does not affect the `Option` result, only that it is `none`.) -/
def simplify_theater (t : JObj) : Option JObj :=
  match simplify_movie_list (jGetD t "movies" (JVal.arr [])) with
  | none => none
  | some ms =>
      match distance_field t with
      | none => none
      | some dm =>
          match geo_field t with
          | none => none
          | some geo =>
              some [("id", jGet t "id"),
                    ("name", jGetD t "name" (JVal.str "Unknown Theater")),
                    ("address", jGetD t "fullAddress" (JVal.str "")),
                    ("city", jGet t "city"),
                    ("state", jGet t "state"),
                    ("zip", jGet t "zip"),
                    ("distance_miles", dm),
                    ("phone", jGet t "phone"),
                    ("chain", jGet t "chainName"),
                    ("amenities", jGetD t "amenitiesString" (JVal.str "")),
                    ("latitude", geo.1),
                    ("longitude", geo.2),
                    ("fandango_url", url_field t "theaterPageUrl"),
                    ("map_url", jGet t "mapURI"),
                    ("date", if jTruthy (jGet t "displayDate") then jGet t "displayDate"
                             else jGet t "date"),
                    ("movie_count", JVal.num (ms.length : ℚ)),
                    ("movies", JVal.arr (ms.map JVal.obj))]

/-! ### `get_showtimes` -/

/-- The "no results" summary built when the payload is falsy or its
`"theaters"` entry is falsy. -/
def no_results (location dt : String) : JObj :=
  [("location", JVal.str location),
   ("date", JVal.str dt),
   ("theater_count", JVal.num 0),
   ("theaters", JVal.arr []),
   ("message", JVal.str "No theaters or showtimes found for this location and date.")]

/-- `get_showtimes` from the source.  The remote call (whose query parameters
are `parse_location location`, the validated date and the page) is abstracted
to its outcome `fetch`; `today` stands for `date.today().isoformat()`.
`none` models an exception escaping the function (possible only for payloads
of an unexpected JSON shape — fetch errors themselves are mapped to an
`error` record). -/
def get_showtimes (today location : String) (date : Option String) (page : ℤ)
    (fetch : Fetched JVal) : Option JObj :=
  let dt := validate_date today date
  match fetch with
  | Fetched.httpError code reason =>
      some [("error", JVal.str ("HTTP " ++ toString code ++ ": " ++ reason))]
  | Fetched.transportError msg =>
      some [("error", JVal.str ("Request failed: " ++ msg))]
  | Fetched.ok data =>
      if jTruthy data = false then some (no_results location dt)
      else
        match data with
        | JVal.obj o =>
            if jTruthy (jGet o "theaters") = false then some (no_results location dt)
            else
              match pyIter (jGet o "theaters") with
              | none => none
              | some tl =>
                  match tl.mapM (fun tv =>
                    match asObj tv with
                    | none => none
                    | some t => simplify_theater t) with
                  | none => none
                  | some ths =>
                      match asObj (jGetD o "pagination" (JVal.obj [])) with
                      | none => none
                      | some pg =>
                          some [("location", JVal.str location),
                                ("date", JVal.str dt),
                                ("page", JVal.num (page : ℚ)),
                                ("total_pages", jGetD pg "totalPages" (JVal.num 1)),
                                ("theater_count", JVal.num (ths.length : ℚ)),
                                ("theaters", JVal.arr (ths.map JVal.obj))]
        | _ => none

/-! ### Identifier normalization (`get_theater_showtimes` / `get_movie_details`) -/

/-- Python `s.rstrip("/")`: drop every trailing slash. -/
def rstripSlashes (l : List Char) : List Char :=
  (l.reverse.dropWhile (fun c => c = '/')).reverse

/-- The remainder of `l` after the first occurrence of `pat`
(`s.split(pat, 1)[-1]` when `pat` occurs). -/
def afterFirst (pat : List Char) : List Char → Option (List Char)
  | [] => if pat.isPrefixOf ([] : List Char) then some [] else none
  | c :: t =>
      if pat.isPrefixOf (c :: t) then some ((c :: t).drop pat.length)
      else afterFirst pat t

/-- Substring containment, Python's `needle in hay`. -/
def containsSub : List Char → List Char → Bool
  | [], needle => needle.isPrefixOf ([] : List Char)
  | c :: t, needle =>
      if needle.isPrefixOf (c :: t) then true else containsSub t needle

/-- `if slug.startswith("http"): slug = slug.split("fandango.com", 1)[-1]`. -/
def strip_host (l : List Char) : List Char :=
  if "http".data.isPrefixOf l then (afterFirst "fandango.com".data l).getD l else l

/-- `if not slug.startswith("/"): slug = "/" + slug`. -/
def ensure_leading_slash (l : List Char) : List Char :=
  match l with
  | '/' :: _ => l
  | _ => '/' :: l

/-- The theater-identifier normalization inlined in `get_theater_showtimes`:
strip, drop trailing slashes, for URL inputs drop everything up to and
including `fandango.com`, ensure a leading slash, append `/theater-page`
unless the slug already ends with it. -/
def normalize_theater_path (theater_id : String) : String :=
  let slug := ensure_leading_slash (strip_host (rstripSlashes (pyStripL theater_id.data)))
  String.mk (if "/theater-page".data.isSuffixOf slug then slug
             else slug ++ "/theater-page".data)

/-- The movie-identifier normalization inlined in `get_movie_details`: the
same steps with the suffix step testing containment of `/movie-overview` or
`/movie-times` and appending `/movie-overview`. -/
def normalize_movie_path (movie_url : String) : String :=
  let slug := ensure_leading_slash (strip_host (rstripSlashes (pyStripL movie_url.data)))
  String.mk (if containsSub slug "/movie-overview".data || containsSub slug "/movie-times".data
             then slug else slug ++ "/movie-overview".data)

/-! ### The two-step theater lookup -/

/-- A character of the regex class `[a-z0-9-]` under `re.IGNORECASE`
(ASCII). -/
def slugChar (c : Char) : Bool :=
  c.isAlpha || c.isDigit || c = '-'

/-- `re.search(r"/([a-z0-9-]+)/theater-page", url, re.IGNORECASE)`: the first
position where a slash is followed by a nonempty run of slug characters and
then the literal `/theater-page`; returns the captured run.  (The character
class excludes `/`, so the backtracking regex match is equivalent to taking
the maximal run.) -/
def findSlug : List Char → Option (List Char)
  | [] => none
  | '/' :: rest =>
      let run := rest.takeWhile slugChar
      if run.length > 0 &&
         "/theater-page".data.isPrefixOf ((rest.drop run.length).map Char.toLower)
      then some run
      else findSlug rest
  | _ :: rest => findSlug rest

/-- `target_slug` in `_fetch_theater_via_api`: the captured slug lowercased,
or `""` when the pattern does not occur in the theater URL. -/
def target_slug (theater_url : String) : String :=
  match findSlug theater_url.data with
  | some run => String.mk (run.map Char.toLower)
  | none => ""

/-- `(theater.get("theaterPageUrl") or "").lower()`: `""` for a falsy stored
value, the lowercased string for a string, and `none` (Python raises on
`.lower()`) for any other truthy value. -/
def tSlug (t : JObj) : Option String :=
  let v := jGet t "theaterPageUrl"
  if jTruthy v then
    match v with
    | JVal.str s => some (String.mk (s.data.map Char.toLower))
    | _ => none
  else some ""

/-- Whether a raw theater object is selected by the slug-matching loop:
the target slug is nonempty and occurs in the theater's lowercased page
URL. -/
def slug_hit (target : String) (t : JObj) : Bool :=
  decide (target ≠ "") &&
    (match tSlug t with
     | some s => containsSub s.data target.data
     | none => false)

/-- The `for theater in data["theaters"]` loop of `_fetch_theater_via_api`:
`some (some r)` when a matching theater was simplified and returned,
`some none` when the loop completed without a match, `none` when an element
raised. -/
def find_loop (target : String) : List JVal → Option (Option JObj)
  | [] => some none
  | tv :: rest =>
      match asObj tv with
      | none => none
      | some t =>
          match tSlug t with
          | none => none
          | some _ =>
              if slug_hit target t then (simplify_theater t).map some
              else find_loop target rest

/-- `_fetch_theater_via_api` from the source.  The JSON query for the
extracted ZIP is abstracted to its outcome `fetch`; any fetch failure is
swallowed (`return None`, modelled `some none`).  The outer `none` models an
exception raised while traversing an unexpectedly-shaped payload. -/
def fetch_theater_via_api (theater_url : String) (fetch : Fetched JVal) :
    Option (Option JObj) :=
  match fetch with
  | Fetched.httpError _ _ => some none
  | Fetched.transportError _ => some none
  | Fetched.ok data =>
      if jTruthy data = false then some none
      else
        match data with
        | JVal.obj o =>
            if jTruthy (jGet o "theaters") = false then some none
            else
              match pyIter (jGet o "theaters") with
              | none => none
              | some elems =>
                  match find_loop (target_slug theater_url) elems with
                  | none => none
                  | some (some r) => some (some r)
                  | some none =>
                      match jGet o "theaters" with
                      | JVal.arr [] => some none
                      | JVal.arr (t0 :: _) =>
                          match asObj t0 with
                          | some t => (simplify_theater t).map some
                          | none => none
                      | _ => none
        | _ => none

/-- A regex `\s` character (ASCII). -/
def reSpace (c : Char) : Bool :=
  c = ' ' || c = '\t' || c = '\n' || c = '\r' || c = '\x0b' || c = '\x0c'

/-- After one of the ZIP key literals: `\s*:\s*"` then five digits, then —
when `reqQuote` — a closing `"`.  Returns the five digits. -/
def zipTryAt (reqQuote : Bool) (l : List Char) : Option String :=
  match l.dropWhile reSpace with
  | ':' :: l2 =>
      match l2.dropWhile reSpace with
      | '"' :: d1 :: d2 :: d3 :: d4 :: d5 :: rest =>
          if d1.isDigit && d2.isDigit && d3.isDigit && d4.isDigit && d5.isDigit &&
             (!reqQuote || (match rest with | '"' :: _ => true | _ => false))
          then some (String.mk [d1, d2, d3, d4, d5])
          else none
      | _ => none
  | _ => none

/-- `re.search` for one ZIP pattern: try the tail of every occurrence of the
key literal, left to right. -/
def zipSearchKey (key : List Char) (reqQuote : Bool) : List Char → Option String
  | [] => none
  | c :: rest =>
      if key.isPrefixOf (c :: rest) then
        match zipTryAt reqQuote ((c :: rest).drop key.length) with
        | some z => some z
        | none => zipSearchKey key reqQuote rest
      else zipSearchKey key reqQuote rest

/-- The three fallback ZIP regexes of `_parse_theater_page`, in order:
`"postalCode"\s*:\s*"(\d{5})`, then `"zipCode"\s*:\s*"(\d{5})"`, then
`"zip"\s*:\s*"(\d{5})"`. -/
def zipSearch (html : List Char) : Option String :=
  match zipSearchKey "\"postalCode\"".data false html with
  | some z => some z
  | none =>
      match zipSearchKey "\"zipCode\"".data true html with
      | some z => some z
      | none => zipSearchKey "\"zip\"".data true html

/-- The explanatory message of the HTML-only fallback record. -/
def theater_fallback_msg : String :=
  "Showtimes are loaded dynamically. Use get_showtimes with the theater's ZIP code to find showtimes."

/-- `_parse_theater_page` from the source.  The BeautifulSoup-derived,
suffix-cleaned theater name is abstracted to the input `nameView` (no claim
concerns it); the ZIP extraction over the raw HTML text and everything after
it is modelled.  `apiFetch` is the outcome of the JSON query made when a ZIP
is found. -/
def parse_theater_page (html : String) (nameView : Option String) (url dt : String)
    (apiFetch : Fetched JVal) : Option JObj :=
  let base : JObj := [("url", JVal.str url), ("date", JVal.str dt)]
  let r := match nameView with
           | some n => jSet base "name" (JVal.str n)
           | none => base
  match zipSearch html.data with
  | some _ =>
      match fetch_theater_via_api url apiFetch with
      | none => none
      | some (some found) => some found
      | some none => some (jSet r "message" (JVal.str theater_fallback_msg))
  | none => some (jSet r "message" (JVal.str theater_fallback_msg))

/-- `get_theater_showtimes` from the source: normalize the identifier, fetch
the theater page HTML (outcome `htmlFetch`), map fetch errors to an `error`
record, else parse the page. -/
def get_theater_showtimes (today theater_id : String) (date : Option String)
    (htmlFetch : Fetched String) (nameView : Option String) (apiFetch : Fetched JVal) :
    Option JObj :=
  let dt := validate_date today date
  let slug := normalize_theater_path theater_id
  let theater_url := FANDANGO_BASE ++ slug ++ "?date=" ++ dt
  match htmlFetch with
  | Fetched.httpError code reason =>
      some [("error", JVal.str ("HTTP " ++ toString code ++ ": " ++ reason))]
  | Fetched.transportError msg =>
      some [("error", JVal.str ("Request failed: " ++ msg))]
  | Fetched.ok html => parse_theater_page html nameView theater_url dt apiFetch

/-! ### `_parse_movie_page` / `get_movie_details`

The BeautifulSoup selector layer is abstracted to a `MoviePageView`: the text
each prioritized selector list produced (or `none`/`[]` when nothing
matched), plus the parse outcome of each `application/ld+json` script block
(`none` models `json.loads` raising).  Everything from those inputs onward —
defaults, the field-by-field assembly, and the structured-data override pass
with its per-block exception swallowing — is modelled from the source. -/

structure MoviePageView where
  /-- Text of the first match of the title selector list (which ends in
  `title`), when any. -/
  title_el : Option String
  /-- Text of the bare `<title>` fallback query. -/
  title_tag : Option String
  rating : Option String
  runtime : Option String
  synopsis : Option String
  /-- Texts of the cast selector matches. -/
  cast : List String
  director : Option String
  genres : List String
  /-- When the poster selector matched: its `src` and `data-src` attributes. -/
  poster_el : Option (Option String × Option String)
  /-- Parse outcome of each `ld+json` block, in document order. -/
  ld_blocks : List (Option JVal)

/-- `", ".join(...)` over the `name` values: every joined element must be a
string, else Python raises (`none`). -/
def join_names (xs : List JVal) : Option String :=
  match xs.mapM (fun v => match v with | JVal.str s => some s | _ => none) with
  | some ss => some (String.intercalate ", " ss)
  | none => none

/-- The `actor` assignment of the structured-data pass:
`[a.get("name", "") for a in ld["actor"] if isinstance(a, dict)]`,
`none` when `ld["actor"]` is not iterable. -/
def cast_of (av : JVal) : Option (List JVal) :=
  match pyIter av with
  | none => none
  | some xs =>
      some (xs.filterMap (fun a => (asObj a).map (fun d => jGetD d "name" (JVal.str ""))))

/-- The tail of the structured-data pass, from the `actor` field on;
the `Bool` is `true` when the block completed (Python `break`). -/
def apply_cast (r : JObj) (o : JObj) : JObj × Bool :=
  if jTruthy (jGet o "actor") then
    match cast_of (jGet o "actor") with
    | none => (r, false)
    | some xs => (jSet r "cast" (JVal.arr xs), true)
  else (r, true)

/-- One `@type == "Movie"` block of the structured-data pass: sequential
in-place updates; a raise (`", ".join` over a non-string name, or a
non-iterable `actor`) leaves the updates made so far and moves to the next
block (`Bool` result `false`). -/
def apply_movie_block (r : JObj) (o : JObj) : JObj × Bool :=
  let r := jSet r "title" ((jLookup o "name").getD ((jLookup r "title").getD JVal.null))
  let r := if jTruthy (jGet o "description") then jSet r "synopsis" (jGet o "description") else r
  let r := if jTruthy (jGet o "duration") then jSet r "runtime" (jGet o "duration") else r
  let r := if jTruthy (jGet o "contentRating") then jSet r "rating" (jGet o "contentRating") else r
  let r := if jTruthy (jGet o "genre") then
             jSet r "genres" (match jGet o "genre" with
                              | JVal.arr xs => JVal.arr xs
                              | g => JVal.arr [g])
           else r
  let r := if jTruthy (jGet o "image") then jSet r "poster" (jGet o "image") else r
  let r := if jTruthy (jGet o "datePublished") then
             jSet r "release_date" (jGet o "datePublished")
           else r
  if jTruthy (jGet o "director") then
    match jGet o "director" with
    | JVal.arr ds =>
        match join_names (ds.filterMap (fun dv =>
          (asObj dv).map (fun d => jGetD d "name" (JVal.str "")))) with
        | none => (r, false)
        | some j => apply_cast (jSet r "director" (JVal.str j)) o
    | JVal.obj d => apply_cast (jSet r "director" (jGet d "name")) o
    | _ => apply_cast r o
  else apply_cast r o

/-- One iteration of the `for script in ld_scripts` loop: a block that failed
to parse, is not a dict, or is not `@type == "Movie"` changes nothing and
does not break. -/
def block_step (r : JObj) : Option JVal → JObj × Bool
  | none => (r, false)
  | some v =>
      match v with
      | JVal.obj o =>
          if (match jGet o "@type" with | JVal.str s => decide (s = "Movie") | _ => false)
          then apply_movie_block r o
          else (r, false)
      | _ => (r, false)

/-- The whole structured-data loop: apply blocks in order until one breaks. -/
def run_blocks (r : JObj) : List (Option JVal) → JObj
  | [] => r
  | b :: bs =>
      match block_step r b with
      | (r', true) => r'
      | (r', false) => run_blocks r' bs

/-- `_parse_movie_page` from the source: the selector-based passes in order,
then the structured-data pass. -/
def parse_movie_page (url : String) (pv : MoviePageView) : JObj :=
  let r : JObj := [("url", JVal.str url)]
  let r := match pv.title_el with
           | some t => jSet r "title" (JVal.str t)
           | none => jSet r "title" (match pv.title_tag with
                                     | some t => JVal.str t
                                     | none => JVal.str "Unknown")
  let r := match pv.rating with | some x => jSet r "rating" (JVal.str x) | none => r
  let r := match pv.runtime with | some x => jSet r "runtime" (JVal.str x) | none => r
  let r := match pv.synopsis with | some x => jSet r "synopsis" (JVal.str x) | none => r
  let r := match pv.cast with
           | [] => r
           | cs => jSet r "cast" (JVal.arr (cs.map JVal.str))
  let r := match pv.director with | some x => jSet r "director" (JVal.str x) | none => r
  let r := match pv.genres with
           | [] => r
           | gs => jSet r "genres" (JVal.arr (gs.map JVal.str))
  let r := match pv.poster_el with
           | some (src, dsrc) =>
               jSet r "poster"
                 (match src with
                  | some s =>
                      if s ≠ "" then JVal.str s
                      else (match dsrc with | some t => JVal.str t | none => JVal.null)
                  | none => (match dsrc with | some t => JVal.str t | none => JVal.null))
           | none => r
  run_blocks r pv.ld_blocks

/-- `get_movie_details` from the source: normalize the URL, map fetch errors
to a two-key `error`/`url` record, else parse the page (the fetched page is
abstracted to its selector view). -/
def get_movie_details (movie_url : String) (fetch : Fetched MoviePageView) : JObj :=
  let slug := normalize_movie_path movie_url
  let url := FANDANGO_BASE ++ slug
  match fetch with
  | Fetched.httpError code reason =>
      [("error", JVal.str ("HTTP " ++ toString code ++ ": " ++ reason)), ("url", JVal.str url)]
  | Fetched.transportError msg =>
      [("error", JVal.str ("Request failed: " ++ msg)), ("url", JVal.str url)]
  | Fetched.ok pv => parse_movie_page url pv

/-! ### Definitions written from the specification's words

These are *not* translations of the source: they restate what the spec /
claims say, to be compared against the source-derived definitions above. -/

/-- The spec's `LocationQuery` shape. -/
inductive LocationQuery where
  | zipCode (z : String)
  | cityState (city state : String)
  | cityOnly (city : String)
  deriving DecidableEq

/-- The API parameter dict each spec variant denotes (`CityOnly` has empty
state, per the spec's "returns CityOnly with empty state"). -/
def location_params : LocationQuery → List (String × String)
  | LocationQuery.zipCode z => [("zipCode", z)]
  | LocationQuery.cityState c st => [("city", c), ("state", st)]
  | LocationQuery.cityOnly c => [("city", c), ("state", "")]

/-- The spec's 5-digit (optionally `-NNNN`) pattern, stated by lengths and
digit runs rather than by the source's regex shape. -/
def spec_is_zip (t : List Char) : Bool :=
  (t.length = 5 && t.all Char.isDigit) ||
  (t.length = 10 && (t.take 5).all Char.isDigit &&
    (match t.drop 5 with
     | '-' :: ds => ds.all Char.isDigit
     | _ => false))

/-- `classify_location` as the spec words it: trim; ZIP pattern wins;
else split at the first comma into trimmed city and state; else a bare
city. -/
def spec_classify_location (raw : String) : LocationQuery :=
  let t := pyStrip raw
  if spec_is_zip t.data then LocationQuery.zipCode t
  else if t.data.contains ',' then
    LocationQuery.cityState
      (String.mk (pyStripL (t.data.takeWhile (fun c => c ≠ ','))))
      (String.mk (pyStripL ((t.data.dropWhile (fun c => c ≠ ',')).drop 1)))
  else LocationQuery.cityOnly t

/-- The showtime display-time rule as claim C1 words it: the nested
`ticketingDate.localTime` field when present, else the flat `dateTime`
field, else the empty string. -/
def spec_time_of (st : JObj) : JVal :=
  match (jLookup st "ticketingDate").bind (fun v =>
    match v with
    | JVal.obj td => jLookup td "localTime"
    | _ => none) with
  | some t => t
  | none => (jLookup st "dateTime").getD (JVal.str "")

/-! ## Theorems -/

/-! ### Generic dict lemmas -/

theorem jLookup_jSet_self (o : JObj) (k : String) (v : JVal) :
    jLookup (jSet o k v) k = some v := by
  induction o with
  | nil => simp [jSet, jLookup, List.lookup]
  | cons kv rest ih =>
      obtain ⟨k', v'⟩ := kv
      by_cases h : k' = k
      · subst h; simp [jSet, jLookup, List.lookup]
      · have hb : (k == k') = false := beq_eq_false_iff_ne.mpr (fun he => h he.symm)
        simp only [jSet, if_neg h, jLookup, List.lookup, hb]
        exact ih

theorem jLookup_jSet_ne (o : JObj) (k k₂ : String) (v : JVal) (h : k₂ ≠ k) :
    jLookup (jSet o k v) k₂ = jLookup o k₂ := by
  have hb : (k₂ == k) = false := beq_eq_false_iff_ne.mpr h
  induction o with
  | nil => simp [jSet, jLookup, List.lookup, hb]
  | cons kv rest ih =>
      obtain ⟨k', v'⟩ := kv
      by_cases hk : k' = k
      · subst hk
        simp [jSet, jLookup, List.lookup, hb]
      · simp only [jSet, if_neg hk, jLookup, List.lookup]
        cases hb2 : k₂ == k' <;> simp_all [jLookup]

/-! ### C2: location classification -/

theorem spec_is_zip_length {l : List Char} (h : spec_is_zip l = true) :
    l.length = 5 ∨ l.length = 10 := by
  simp only [spec_is_zip, Bool.or_eq_true, Bool.and_eq_true, decide_eq_true_eq] at h
  rcases h with ⟨h1, _⟩ | ⟨⟨h1, _⟩, _⟩
  · exact Or.inl h1
  · exact Or.inr h1

theorem isZipPat_eq_spec (l : List Char) : isZipPat l = spec_is_zip l := by
  rcases l with _ | ⟨a, _ | ⟨b, _ | ⟨c, _ | ⟨d, _ | ⟨e, _ | ⟨f, _ | ⟨g, _ | ⟨h, _ | ⟨i, _ |
    ⟨j, _ | ⟨k, rest⟩⟩⟩⟩⟩⟩⟩⟩⟩⟩⟩
  case nil => rfl
  case cons.nil => rfl
  case cons.cons.nil => rfl
  case cons.cons.cons.nil => rfl
  case cons.cons.cons.cons.nil => rfl
  case cons.cons.cons.cons.cons.nil =>
      simp [isZipPat, spec_is_zip, List.all_cons, Bool.and_true, Bool.or_false, Bool.and_assoc]
  case cons.cons.cons.cons.cons.cons.nil => rfl
  case cons.cons.cons.cons.cons.cons.cons.nil => rfl
  case cons.cons.cons.cons.cons.cons.cons.cons.nil => rfl
  case cons.cons.cons.cons.cons.cons.cons.cons.cons.nil => rfl
  case cons.cons.cons.cons.cons.cons.cons.cons.cons.cons.nil =>
      by_cases hf : f = '-'
      · subst hf
        simp [isZipPat, spec_is_zip, List.all_cons, Bool.and_true, Bool.or_false, Bool.and_assoc]
      · have h1 : isZipPat [a, b, c, d, e, f, g, h, i, j] =
            (a.isDigit && b.isDigit && c.isDigit && d.isDigit && e.isDigit &&
             decide (f = '-') && g.isDigit && h.isDigit && i.isDigit && j.isDigit) := rfl
        rw [h1]
        simp only [hf, decide_False, Bool.and_false, Bool.false_and]
        cases h2 : spec_is_zip [a, b, c, d, e, f, g, h, i, j]
        · rfl
        · exfalso
          simp only [spec_is_zip, Bool.or_eq_true, Bool.and_eq_true, decide_eq_true_eq] at h2
          rcases h2 with ⟨h3, _⟩ | ⟨_, h4⟩
          · simp at h3
          · rw [show List.drop 5 ([a, b, c, d, e, f, g, h, i, j] : List Char) =
                f :: [g, h, i, j] from rfl] at h4
            revert h4
            split
            · next ds heq => exact fun _ => hf (List.cons.inj heq).1
            · exact fun h4 => by simp at h4
  case cons.cons.cons.cons.cons.cons.cons.cons.cons.cons.cons =>
      rcases hz : spec_is_zip (a :: b :: c :: d :: e :: f :: g :: h :: i :: j :: k :: rest)
      · rfl
      · exfalso
        have hl := spec_is_zip_length hz
        simp only [List.length_cons] at hl
        omega

theorem splitFirstComma_eq (l : List Char) :
    splitFirstComma l =
      if l.contains ',' then
        some (l.takeWhile (fun c => c ≠ ','), (l.dropWhile (fun c => c ≠ ',')).drop 1)
      else none := by
  induction l with
  | nil => simp [splitFirstComma]
  | cons c t ih =>
      by_cases h : c = ','
      · subst h
        simp [splitFirstComma, List.takeWhile_cons, List.dropWhile_cons]
      · rw [splitFirstComma, ih]
        by_cases hc : t.contains ','
        · simp [hc, List.contains_cons, h, Ne.symm h, List.takeWhile_cons, List.dropWhile_cons]
        · simp [hc, List.contains_cons, h, Ne.symm h]

/-- C2, refinement direction: the source's `_parse_location` produces exactly
the parameter dict of the spec's (total, three-way) classification. -/
theorem parse_location_eq_spec (s : String) :
    parse_location s = location_params (spec_classify_location s) := by
  simp only [parse_location, spec_classify_location]
  rw [isZipPat_eq_spec, splitFirstComma_eq]
  by_cases hz : spec_is_zip (pyStrip s).data
  · simp [hz, location_params]
  · by_cases hc : ',' ∈ (pyStrip s).data
    · simp [hz, hc, location_params]
    · simp [hz, hc, location_params]

/-- C2: location classification is total and matches the spec's three-way
split: the source's `_parse_location` agrees on every input string with the
spec's `classify_location` (ZIP pattern preserved verbatim; first-comma split
with both parts trimmed; bare trimmed city with empty state otherwise), and
the spec's own example behaves as stated. -/
theorem claim_C2 :
    (∀ s : String, parse_location s = location_params (spec_classify_location s)) ∧
    spec_classify_location "  Chicago ,  IL  " = LocationQuery.cityState "Chicago" "IL" ∧
    parse_location "  Chicago ,  IL  " = [("city", "Chicago"), ("state", "IL")] :=
  ⟨parse_location_eq_spec, by decide, by decide⟩

/-! ### C3: date validation -/

/-- C3: `_validate_date` never raises (it is a total function), returns
today's date for absent and empty input, returns any string accepted by the
strict `%Y-%m-%d` parse unchanged, returns today's date for any other string,
and in particular rejects the invalid calendar date `"2026-13-40"`.  The
parse accepts CPython's space-padded day, so `"2026-12- 3"` is returned
unchanged. -/
theorem claim_C3 (today s : String) :
    validate_date today none = today ∧
    validate_date today (some "") = today ∧
    ((strptime_ymd s).isSome → validate_date today (some s) = s) ∧
    ((strptime_ymd s).isNone → validate_date today (some s) = today) ∧
    strptime_ymd "2026-13-40" = none ∧
    strptime_ymd "2026-02-29" = none ∧
    strptime_ymd "2024-02-29" = some (2024, 2, 29) ∧
    strptime_ymd "2026-10-12" = some (2026, 10, 12) ∧
    strptime_ymd "2026-12- 3" = some (2026, 12, 3) ∧
    validate_date today (some "2026-12- 3") = "2026-12- 3" := by
  refine ⟨rfl, rfl, ?_, ?_, by decide, by decide, by decide, by decide, by decide, rfl⟩
  · intro hs
    by_cases he : s = ""
    · subst he; simp [strptime_ymd] at hs
    · simp [validate_date, he, hs]
  · intro hn
    by_cases he : s = ""
    · subst he; simp [validate_date]
    · simp only [Option.isNone_iff_eq_none] at hn
      simp [validate_date, he, hn]

theorem claim_C3_witness :
    validate_date "2026-10-12" (some "2026-12-25") = "2026-12-25" ∧
    validate_date "2026-10-12" (some "2026-13-40") = "2026-10-12" :=
  ⟨(claim_C3 "2026-10-12" "2026-12-25").2.2.1 (by decide),
   (claim_C3 "2026-10-12" "2026-13-40").2.2.2.1 (by decide)⟩

/-! ### C1: showtime label composition

The claim's time rule — `ticketingDate.localTime` when present, **else the
flat `dateTime` field**, else `""` — does not match the code: the code
branches on whether `ticketingDate` is a dict, so a dict-valued
`ticketingDate` *without* `localTime` yields `""` and never consults
`dateTime`. -/

/-- C1 counterexample: for the showtime
`{ticketingDate: {}, dateTime: "7:00pm"}` the claim's rule gives `"7:00pm"`
(`localTime` is absent, so it falls back to `dateTime`), but
`_simplify_showtime` gives `""`. -/
theorem claim_C1_counterexample :
    spec_time_of [("ticketingDate", JVal.obj []), ("dateTime", JVal.str "7:00pm")] =
      JVal.str "7:00pm" ∧
    jLookup (simplify_showtime
        [("ticketingDate", JVal.obj []), ("dateTime", JVal.str "7:00pm")]) "time" =
      some (JVal.str "") ∧
    JVal.str "7:00pm" ≠ JVal.str "" := by
  refine ⟨rfl, rfl, fun h => ?_⟩
  injection h with h1
  exact absurd h1 (by decide)

/-- C1 amended: when the stored `ticketingDate` is a dict, the time part is
its `localTime` entry when present and `""` otherwise (`dateTime` is not
consulted); when `ticketingDate` is absent or not a dict, the time part is
the flat `dateTime` field when present, else `""`.  The suffix rule is as
claimed: a truthy variant format other than the literal `"Standard"` appends
`" (format)"` to the flattened label, otherwise the label is the bare time
(shown end-to-end on an IMAX and a default-format movie). -/
theorem claim_C1_amended :
    (∀ (st td : JObj), jLookup st "ticketingDate" = some (JVal.obj td) →
       jLookup (simplify_showtime st) "time" = some (jGetD td "localTime" (JVal.str ""))) ∧
    (∀ (st : JObj) (v : JVal), jLookup st "ticketingDate" = some v →
       (∀ o : JObj, v ≠ JVal.obj o) →
       jLookup (simplify_showtime st) "time" = some (jGetD st "dateTime" (JVal.str ""))) ∧
    (∀ st : JObj, jLookup st "ticketingDate" = none →
       jLookup (simplify_showtime st) "time" = some (jGetD st "dateTime" (JVal.str ""))) ∧
    (∀ (s f : String), f ≠ "" → f ≠ "Standard" →
       mk_label (JVal.str f) (JVal.str s) = some (JVal.str (s ++ " (" ++ f ++ ")"))) ∧
    (∀ s : String, mk_label (JVal.str "Standard") (JVal.str s) = some (JVal.str s) ∧
       mk_label (JVal.str "") (JVal.str s) = some (JVal.str s)) ∧
    ((simplify_movie
        [("variants", JVal.arr [JVal.obj
           [("filmFormatHeader", JVal.str "IMAX"),
            ("amenityGroups", JVal.arr [JVal.obj
              [("showtimes", JVal.arr [JVal.obj
                [("ticketingDate", JVal.obj [("localTime", JVal.str "7:00pm")])]])]])]])]).map
      (fun r => jLookup r "showtimes") = some (some (JVal.arr [JVal.str "7:00pm (IMAX)"]))) ∧
    ((simplify_movie
        [("variants", JVal.arr [JVal.obj
           [("amenityGroups", JVal.arr [JVal.obj
              [("showtimes", JVal.arr [JVal.obj
                [("dateTime", JVal.str "7:00pm")]])]])]])]).map
      (fun r => jLookup r "showtimes") = some (some (JVal.arr [JVal.str "7:00pm"]))) := by
  have hmain : ∀ st : JObj, jLookup (simplify_showtime st) "time" = some (time_of st) :=
    fun st => by simp [simplify_showtime, jLookup, List.lookup]
  refine ⟨?_, ?_, ?_, ?_, ?_, rfl, rfl⟩
  · intro st td h
    rw [hmain]
    simp only [time_of]
    rw [h]
  · intro st v h hv
    rw [hmain]
    simp only [time_of]
    rw [h]
    cases v <;> try rfl
    exact absurd rfl (hv _)
  · intro st h
    rw [hmain]
    simp only [time_of]
    rw [h]
  · intro s f h1 h2
    simp [mk_label, jTruthy, h1, h2, pyStr]
  · intro s
    constructor <;> rfl

theorem claim_C1_amended_witness :
    jLookup (simplify_showtime
        [("ticketingDate", JVal.obj [("localTime", JVal.str "4:30pm")])]) "time" =
      some (JVal.str "4:30pm") ∧
    jLookup (simplify_showtime
        [("ticketingDate", JVal.null), ("dateTime", JVal.str "5:00pm")]) "time" =
      some (JVal.str "5:00pm") ∧
    jLookup (simplify_showtime [("dateTime", JVal.str "6:00pm")]) "time" =
      some (JVal.str "6:00pm") ∧
    mk_label (JVal.str "IMAX") (JVal.str "7:00pm") = some (JVal.str "7:00pm (IMAX)") :=
  ⟨(claim_C1_amended.1 [("ticketingDate", JVal.obj [("localTime", JVal.str "4:30pm")])]
      [("localTime", JVal.str "4:30pm")] rfl).trans rfl,
   (claim_C1_amended.2.1 [("ticketingDate", JVal.null), ("dateTime", JVal.str "5:00pm")]
      JVal.null rfl (fun _ h => JVal.noConfusion h)).trans rfl,
   (claim_C1_amended.2.2.1 [("dateTime", JVal.str "6:00pm")] rfl).trans rfl,
   (claim_C1_amended.2.2.2.1 "7:00pm" "IMAX" (by decide) (by decide)).trans rfl⟩

/-! ### C4: empty / absent theaters -/

/-- C4: for a payload whose `"theaters"` entry is absent, `null`, or `[]`,
`get_showtimes` returns the no-results summary — `theater_count` 0, empty
`theaters`, the echoed location and normalized date, a non-empty message —
and no `error` key. -/
theorem claim_C4 (today location : String) (date : Option String) (page : ℤ) (o : JObj)
    (h : jLookup o "theaters" = none ∨ jLookup o "theaters" = some JVal.null ∨
         jLookup o "theaters" = some (JVal.arr [])) :
    get_showtimes today location date page (Fetched.ok (JVal.obj o)) =
      some (no_results location (validate_date today date)) ∧
    jLookup (no_results location (validate_date today date)) "theater_count" =
      some (JVal.num 0) ∧
    jLookup (no_results location (validate_date today date)) "theaters" =
      some (JVal.arr []) ∧
    jLookup (no_results location (validate_date today date)) "location" =
      some (JVal.str location) ∧
    jLookup (no_results location (validate_date today date)) "date" =
      some (JVal.str (validate_date today date)) ∧
    jLookup (no_results location (validate_date today date)) "message" =
      some (JVal.str "No theaters or showtimes found for this location and date.") ∧
    "No theaters or showtimes found for this location and date." ≠ "" ∧
    jLookup (no_results location (validate_date today date)) "error" = none := by
  refine ⟨?_, rfl, rfl, rfl, rfl, rfl, by decide, rfl⟩
  cases o with
  | nil => rfl
  | cons kv rest =>
      simp only [get_showtimes, jTruthy, jGet, jGetD]
      rcases h with h | h | h <;> rw [h] <;> rfl

theorem claim_C4_witness :
    get_showtimes "2026-10-12" "10001" none 1
        (Fetched.ok (JVal.obj [("theaters", JVal.arr [])])) =
      some (no_results "10001" "2026-10-12") :=
  (claim_C4 "2026-10-12" "10001" none 1 [("theaters", JVal.arr [])]
    (Or.inr (Or.inr rfl))).1

/-! ### C5: uniform fetch-error records -/

/-- C5: every fetch failure in the three entry operations is returned as a
structured record (never raised): HTTP failures render as
`"HTTP <code>: <reason>"`, transport failures as `"Request failed: <msg>"`;
`get_movie_details` adds the requested URL and nothing else, and at HTTP 404
"Not Found" returns exactly the two-key record the claim states. -/
theorem claim_C5 :
    (∀ (movie_url : String) (code : ℕ) (reason : String),
       get_movie_details movie_url (Fetched.httpError code reason) =
         [("error", JVal.str ("HTTP " ++ toString code ++ ": " ++ reason)),
          ("url", JVal.str (FANDANGO_BASE ++ normalize_movie_path movie_url))]) ∧
    (∀ (movie_url msg : String),
       get_movie_details movie_url (Fetched.transportError msg) =
         [("error", JVal.str ("Request failed: " ++ msg)),
          ("url", JVal.str (FANDANGO_BASE ++ normalize_movie_path movie_url))]) ∧
    (∀ (today location : String) (date : Option String) (page : ℤ) (code : ℕ) (reason : String),
       get_showtimes today location date page (Fetched.httpError code reason) =
         some [("error", JVal.str ("HTTP " ++ toString code ++ ": " ++ reason))]) ∧
    (∀ (today location : String) (date : Option String) (page : ℤ) (msg : String),
       get_showtimes today location date page (Fetched.transportError msg) =
         some [("error", JVal.str ("Request failed: " ++ msg))]) ∧
    (∀ (today tid : String) (date : Option String) (code : ℕ) (reason : String)
       (nv : Option String) (af : Fetched JVal),
       get_theater_showtimes today tid date (Fetched.httpError code reason) nv af =
         some [("error", JVal.str ("HTTP " ++ toString code ++ ": " ++ reason))]) ∧
    (∀ (today tid : String) (date : Option String) (msg : String)
       (nv : Option String) (af : Fetched JVal),
       get_theater_showtimes today tid date (Fetched.transportError msg) nv af =
         some [("error", JVal.str ("Request failed: " ++ msg))]) ∧
    get_movie_details "https://www.fandango.com/brave-new-world-2025-233496/movie-overview"
        (Fetched.httpError 404 "Not Found") =
      [("error", JVal.str "HTTP 404: Not Found"),
       ("url", JVal.str "https://www.fandango.com/brave-new-world-2025-233496/movie-overview")] :=
  ⟨fun _ _ _ => rfl, fun _ _ => rfl, fun _ _ _ _ _ _ => rfl, fun _ _ _ _ _ => rfl,
   fun _ _ _ _ _ _ _ => rfl, fun _ _ _ _ _ _ => rfl, rfl⟩

/-! ### C9: distance rounding -/

/-- C9: a present non-null numeric `distance` is rounded (half-to-even) to
two decimal places; an absent or null `distance` yields a null
`distance_miles`; `3.14159` rounds to exactly `3.14`. -/
theorem claim_C9 :
    (∀ (t : JObj) (q : ℚ) (r : JObj), jLookup t "distance" = some (JVal.num q) →
       simplify_theater t = some r →
       jLookup r "distance_miles" = some (JVal.num (round2 q))) ∧
    (∀ (t : JObj) (r : JObj),
       jLookup t "distance" = none ∨ jLookup t "distance" = some JVal.null →
       simplify_theater t = some r →
       jLookup r "distance_miles" = some JVal.null) ∧
    round2 (Rat.divInt 314159 100000) = Rat.divInt 157 50 ∧
    ((simplify_theater [("distance", JVal.num (Rat.divInt 314159 100000))]).bind
       (fun r => jLookup r "distance_miles") = some (JVal.num (Rat.divInt 157 50))) := by
  have main : ∀ (t : JObj) (dv : JVal) (r : JObj), distance_field t = some dv →
      simplify_theater t = some r → jLookup r "distance_miles" = some dv := by
    intro t dv r hdf hs
    simp only [simplify_theater] at hs
    cases hm : simplify_movie_list (jGetD t "movies" (JVal.arr [])) with
    | none => rw [hm] at hs; exact absurd hs (by simp)
    | some ms =>
        rw [hm, hdf] at hs
        cases hg : geo_field t with
        | none => rw [hg] at hs; exact absurd hs (by simp)
        | some geo =>
            rw [hg] at hs
            injection hs with hr
            subst hr
            rfl
  refine ⟨?_, ?_, by decide, rfl⟩
  · intro t q r hd hs
    refine main t _ r ?_ hs
    simp only [distance_field]
    rw [hd]
  · intro t r hd hs
    refine main t _ r ?_ hs
    rcases hd with hd | hd <;> simp only [distance_field] <;> rw [hd]

theorem claim_C9_witness :
    jLookup ((simplify_theater [("distance", JVal.num (Rat.divInt 314159 100000))]).getD [])
      "distance_miles" = some (JVal.num (round2 (Rat.divInt 314159 100000))) ∧
    jLookup ((simplify_theater [("name", JVal.str "AMC Empire 25")]).getD [])
      "distance_miles" = some JVal.null :=
  ⟨claim_C9.1 [("distance", JVal.num (Rat.divInt 314159 100000))] (Rat.divInt 314159 100000)
      _ rfl rfl,
   claim_C9.2.1 [("name", JVal.str "AMC Empire 25")] _ (Or.inl rfl) rfl⟩

/-! ### C10: count fields match list lengths -/

/-- C10: for every successfully simplified theater, `movie_count` is the
length of its `movies` list; and whenever a `get_showtimes` result carries a
`theaters` list, its `theater_count` is that list's length (this covers the
no-results record, where both are zero, and the populated record). -/
theorem claim_C10 :
    (∀ (t : JObj) (r : JObj), simplify_theater t = some r →
       ∃ ms : List JObj, jLookup r "movies" = some (JVal.arr (ms.map JVal.obj)) ∧
         jLookup r "movie_count" = some (JVal.num (ms.length : ℚ))) ∧
    (∀ (today location : String) (date : Option String) (page : ℤ) (fetch : Fetched JVal)
       (r : JObj) (ts : List JVal),
       get_showtimes today location date page fetch = some r →
       jLookup r "theaters" = some (JVal.arr ts) →
       jLookup r "theater_count" = some (JVal.num (ts.length : ℚ))) := by
  constructor
  · intro t r hs
    simp only [simplify_theater] at hs
    cases hm : simplify_movie_list (jGetD t "movies" (JVal.arr [])) with
    | none => rw [hm] at hs; exact absurd hs (by simp)
    | some ms =>
        rw [hm] at hs
        cases hd : distance_field t with
        | none => rw [hd] at hs; exact absurd hs (by simp)
        | some dv =>
            rw [hd] at hs
            cases hg : geo_field t with
            | none => rw [hg] at hs; exact absurd hs (by simp)
            | some geo =>
                rw [hg] at hs
                injection hs with hr
                subst hr
                exact ⟨ms, rfl, rfl⟩
  · intro today location date page fetch r ts hs ht
    cases fetch with
    | httpError code reason =>
        injection hs with hr
        subst hr
        exact absurd ht (by simp [jLookup, List.lookup])
    | transportError msg =>
        injection hs with hr
        subst hr
        exact absurd ht (by simp [jLookup, List.lookup])
    | ok data =>
        simp only [get_showtimes] at hs
        split at hs
        · -- falsy payload: the no-results record
          injection hs with hr
          subst hr
          have h2 : some (JVal.arr ([] : List JVal)) = some (JVal.arr ts) := ht
          injection h2 with h3
          injection h3 with h4
          subst h4
          rfl
        · split at hs
          · split at hs
            · -- falsy "theaters": the no-results record
              injection hs with hr
              subst hr
              have h2 : some (JVal.arr ([] : List JVal)) = some (JVal.arr ts) := ht
              injection h2 with h3
              injection h3 with h4
              subst h4
              rfl
            · split at hs
              · exact Option.noConfusion hs
              · split at hs
                · exact Option.noConfusion hs
                · split at hs
                  · exact Option.noConfusion hs
                  · injection hs with hr
                    subst hr
                    simp [jLookup, List.lookup] at ht ⊢
                    subst ht
                    simp
          · exact Option.noConfusion hs

theorem claim_C10_witness :
    (∃ ms : List JObj,
       jLookup ((simplify_theater [("movies", JVal.arr [JVal.obj []])]).getD [])
         "movies" = some (JVal.arr (ms.map JVal.obj)) ∧
       jLookup ((simplify_theater [("movies", JVal.arr [JVal.obj []])]).getD [])
         "movie_count" = some (JVal.num (ms.length : ℚ))) ∧
    jLookup ((get_showtimes "2026-10-12" "10001" none 1
        (Fetched.ok (JVal.obj [("theaters", JVal.arr [JVal.obj []])]))).getD [])
      "theater_count" = some (JVal.num ((1 : ℕ) : ℚ)) :=
  ⟨claim_C10.1 [("movies", JVal.arr [JVal.obj []])] _ rfl,
   claim_C10.2 "2026-10-12" "10001" none 1
     (Fetched.ok (JVal.obj [("theaters", JVal.arr [JVal.obj []])])) _ _ rfl rfl⟩

/-! ### C7: identifier-to-path normalization -/

theorem isPrefixOf_self_append (l t : List Char) : l.isPrefixOf (l ++ t) = true := by
  induction l with
  | nil => simp [List.isPrefixOf]
  | cons c l ih => simp [List.isPrefixOf, ih]

theorem isSuffixOf_append_self (a b : List Char) : b.isSuffixOf (a ++ b) = true := by
  simp only [List.isSuffixOf, List.reverse_append]
  exact isPrefixOf_self_append _ _

theorem ensure_leading_slash_head (l : List Char) :
    ∃ t, ensure_leading_slash l = '/' :: t := by
  cases l with
  | nil => exact ⟨[], rfl⟩
  | cons c rest =>
      by_cases h : c = '/'
      · subst h; exact ⟨rest, rfl⟩
      · refine ⟨c :: rest, ?_⟩
        simp only [ensure_leading_slash]
        split
        · next heq => exact absurd (List.cons.inj heq).1 h
        · rfl

/-- C7: the full-URL form and the bare slug normalize to the same path, for
both the theater and the movie normalizer; and every theater normalization
yields a path that starts with `/` and ends with `/theater-page`. -/
theorem claim_C7 :
    normalize_theater_path "https://www.fandango.com/foo-bar/theater-page" =
      "/foo-bar/theater-page" ∧
    normalize_theater_path "foo-bar" = "/foo-bar/theater-page" ∧
    normalize_movie_path "https://www.fandango.com/foo-bar-2025-123456/movie-overview" =
      "/foo-bar-2025-123456/movie-overview" ∧
    normalize_movie_path "foo-bar-2025-123456" = "/foo-bar-2025-123456/movie-overview" ∧
    (∀ raw : String, ∃ t : List Char, (normalize_theater_path raw).data = '/' :: t) ∧
    (∀ raw : String,
       "/theater-page".data.isSuffixOf (normalize_theater_path raw).data = true) := by
  refine ⟨by decide, by decide, by decide, by decide, ?_, ?_⟩
  · intro raw
    simp only [normalize_theater_path]
    obtain ⟨t, ht⟩ := ensure_leading_slash_head
      (strip_host (rstripSlashes (pyStripL raw.data)))
    rw [ht]
    split
    · exact ⟨t, rfl⟩
    · exact ⟨t ++ "/theater-page".data, rfl⟩
  · intro raw
    simp only [normalize_theater_path]
    split
    · next h => exact h
    · exact isSuffixOf_append_self _ _

/-! ### C6: structured-data override in `_parse_movie_page` -/

theorem run_blocks_movie_X (r : JObj) :
    run_blocks r [some (JVal.obj [("@type", JVal.str "Movie"), ("name", JVal.str "X"),
        ("genre", JVal.arr [JVal.str "Action", JVal.str "Drama"])])] =
      jSet (jSet r "title" (JVal.str "X")) "genres"
        (JVal.arr [JVal.str "Action", JVal.str "Drama"]) := rfl

/-- C6: a structured-data block that parses as a Movie overrides the
selector-based passes — with a block naming `"X"` with genres
`["Action","Drama"]` and a selector-derived title `"Y"`, the final title is
`"X"` and the genres are exactly the block's; multiple director names are
joined with `", "`; a block that fails to parse is skipped and the next block
is processed (and likewise a parsed block that is not a Movie dict). -/
theorem claim_C6 :
    (∀ (url : String) (tt rt rn sy di : Option String) (ca ge : List String)
       (po : Option (Option String × Option String)),
       jLookup (parse_movie_page url
           ⟨some "Y", tt, rt, rn, sy, ca, di, ge, po,
            [some (JVal.obj [("@type", JVal.str "Movie"), ("name", JVal.str "X"),
              ("genre", JVal.arr [JVal.str "Action", JVal.str "Drama"])])]⟩) "title" =
         some (JVal.str "X") ∧
       jLookup (parse_movie_page url
           ⟨some "Y", tt, rt, rn, sy, ca, di, ge, po,
            [some (JVal.obj [("@type", JVal.str "Movie"), ("name", JVal.str "X"),
              ("genre", JVal.arr [JVal.str "Action", JVal.str "Drama"])])]⟩) "genres" =
         some (JVal.arr [JVal.str "Action", JVal.str "Drama"])) ∧
    jLookup (run_blocks [] [some (JVal.obj [("@type", JVal.str "Movie"),
        ("director", JVal.arr [JVal.obj [("name", JVal.str "A")],
          JVal.obj [("name", JVal.str "B")]])])]) "director" =
      some (JVal.str "A, B") ∧
    (∀ (r : JObj) (bs : List (Option JVal)), run_blocks r (none :: bs) = run_blocks r bs) ∧
    (∀ (r : JObj) (bs : List (Option JVal)) (s : String),
       run_blocks r (some (JVal.str s) :: bs) = run_blocks r bs) := by
  refine ⟨?_, rfl, fun r bs => rfl, fun r bs s => rfl⟩
  intro url tt rt rn sy ca di ge po
  constructor
  · exact (jLookup_jSet_ne _ "genres" "title" _ (by decide)).trans
      (jLookup_jSet_self _ "title" _)
  · exact jLookup_jSet_self _ "genres" _

/-! ### C8: the two-step theater lookup -/

theorem find_loop_eq (target : String) (l : List JObj) (h : ∀ t ∈ l, tSlug t ≠ none) :
    find_loop target (l.map JVal.obj) =
      match l.find? (slug_hit target) with
      | some t => (simplify_theater t).map some
      | none => some none := by
  induction l with
  | nil => rfl
  | cons t rest ih =>
      obtain ⟨sl, hsl⟩ : ∃ sl, tSlug t = some sl := by
        cases hts : tSlug t
        · exact absurd hts (h t (by simp))
        · exact ⟨_, rfl⟩
      simp only [List.map_cons, find_loop, asObj]
      rw [hsl]
      by_cases hhit : slug_hit target t
      · rw [List.find?_cons_of_pos _ hhit]
        simp [hhit]
      · rw [List.find?_cons_of_neg _ (by simp [hhit])]
        simp only [hhit, if_false, Bool.false_eq_true]
        exact ih (fun t' ht' => h t' (List.mem_cons_of_mem _ ht'))

/-- C8: when the ZIP-scoped query returns a non-empty theater list, the
operation returns the simplification of the first theater whose page-URL slug
contains the requested identifier's slug (both lowercased, so the match is
case-insensitive), falling back to the first theater when no slug matches;
and when no postal code is found on the page, a partial record carrying the
message that suggests `get_showtimes` is returned. -/
theorem claim_C8 :
    (∀ (url : String) (t0 : JObj) (rest : List JObj),
       (∀ t ∈ t0 :: rest, tSlug t ≠ none) →
       fetch_theater_via_api url
           (Fetched.ok (JVal.obj [("theaters", JVal.arr ((t0 :: rest).map JVal.obj))])) =
         Option.map some
           (simplify_theater (((t0 :: rest).find? (slug_hit (target_slug url))).getD t0))) ∧
    (∀ (html : String) (nameView : Option String) (url dt : String) (af : Fetched JVal),
       zipSearch html.data = none →
       parse_theater_page html nameView url dt af =
         some (jSet (match nameView with
                     | some n => jSet [("url", JVal.str url), ("date", JVal.str dt)]
                         "name" (JVal.str n)
                     | none => [("url", JVal.str url), ("date", JVal.str dt)])
               "message" (JVal.str theater_fallback_msg))) := by
  constructor
  · intro url t0 rest h
    have step : fetch_theater_via_api url
        (Fetched.ok (JVal.obj [("theaters", JVal.arr ((t0 :: rest).map JVal.obj))])) =
        (match find_loop (target_slug url) ((t0 :: rest).map JVal.obj) with
         | none => none
         | some (some r) => some (some r)
         | some none => Option.map some (simplify_theater t0)) := rfl
    rw [step, find_loop_eq _ _ h]
    cases hf : (t0 :: rest).find? (slug_hit (target_slug url)) with
    | some t =>
        change (match Option.map some (simplify_theater t) with
                | none => (none : Option (Option JObj))
                | some (some r) => some (some r)
                | some none => Option.map some (simplify_theater t0)) =
            Option.map some (simplify_theater t)
        cases simplify_theater t with
        | none => rfl
        | some r => rfl
    | none => rfl
  · intro html nameView url dt af hzip
    simp only [parse_theater_page]
    rw [hzip]

theorem claim_C8_witness :
    fetch_theater_via_api "https://www.fandango.com/amc-foo-bar/theater-page?date=2026-10-12"
        (Fetched.ok (JVal.obj [("theaters", JVal.arr
          [JVal.obj [("theaterPageUrl", JVal.str "/other-place/theater-page")],
           JVal.obj [("theaterPageUrl", JVal.str "/AMC-Foo-Bar/theater-page")]])])) =
      Option.map some
        (simplify_theater [("theaterPageUrl", JVal.str "/AMC-Foo-Bar/theater-page")]) ∧
    parse_theater_page "no postal code in this document" none "u" "2026-10-12"
        (Fetched.ok JVal.null) =
      some [("url", JVal.str "u"), ("date", JVal.str "2026-10-12"),
            ("message", JVal.str theater_fallback_msg)] :=
  ⟨claim_C8.1 "https://www.fandango.com/amc-foo-bar/theater-page?date=2026-10-12"
      [("theaterPageUrl", JVal.str "/other-place/theater-page")]
      [[("theaterPageUrl", JVal.str "/AMC-Foo-Bar/theater-page")]]
      (by decide),
   claim_C8.2 "no postal code in this document" none "u" "2026-10-12" (Fetched.ok JVal.null)
      (by decide)⟩

end Movietime
